import Mathlib

/-!
Shallow embedding of `safe-wipe` (src/index.js): a guarded directory-deletion
primitive.  The JavaScript pipeline `safeWipeRaw` chains, as a promise chain,
a containment check (`checkParent`), an emptiness / confirmation check
(`checkEmpty`), and the external recursive delete (`rimraf`), with an optional
error-stream echo on failure.

External collaborators (`path.resolve`, `fs.readdir`, the readline answer and
the `rimraf` outcome) are modelled as an environment `Env` of pure functions;
the observable side effects (directory listing, prompt write, answer read,
delete invocation, error-stream write) are recorded as an event trace, and the
promise's settlement is an `Except Err Unit`.
-/

namespace SafeWipe

/-- A stream handle.  `processStdin`/`processStdout`/`processStderr` are the
ambient `process` streams used as defaults; `handle n` is any caller-supplied
stream object. -/
inductive StreamHandle where
  | processStdin
  | processStdout
  | processStderr
  | handle (n : Nat)
deriving DecidableEq

/-- A JavaScript `Error` as produced by `createError(message, code)` or by the
`fs` layer (whose errors carry codes such as `ENOENT`, `EACCES`). -/
structure Err where
  message : String
  code : String
deriving DecidableEq

/-- `createError(message, code)` from src/index.js. -/
def createError (message : String) (code : String) : Err :=
  { message := message, code := code }

deriving instance DecidableEq for Except

/-- Observable side effects of one invocation, in order. -/
inductive Event where
  | readdirCall (dir : String)
  | promptWrite (out : StreamHandle) (text : String)
  | answerRead (inp : StreamHandle)
  | rimrafCall (dir : String)
  | stderrWrite (err : StreamHandle) (text : String)
deriving DecidableEq

/-- The environment: the external collaborators consumed by the pipeline.
`resolve` models `path.resolve` (absolute-normalized form of a path),
`listing` models `fs.readdir` (entry names, or a coded failure),
`answer` is the line the readline interface yields at the prompt, and
`rimraf` is the outcome of the external recursive delete (`none` = success). -/
structure Env where
  resolve : String → String
  listing : String → Except Err (List String)
  answer : String
  rimraf : String → Option Err

/-- The `messages` bundle after defaulting. -/
structure Messages where
  contained : String
  confirm : String
  abort : String
deriving DecidableEq

/-- A caller-supplied partial `messages` object (absent keys are `none`). -/
structure UserMessages where
  contained : Option String := none
  confirm : Option String := none
  abort : Option String := none
deriving DecidableEq

/-- A caller-supplied partial config object.  The main implementation's
documented keys are `stdin`, `stdout`, `stderr`, `ignore`, `parent`,
`interactive`, `force`, `silent`, `messages`.  The fields `input`, `output`,
`error` model a caller supplying streams under those keys: `extend` copies
them onto the config object, but no code path of src/index.js ever reads
them.  `parent` is `some (some p)` for `parent: "p"`, `some none` for an
explicit `parent: null`, `none` when absent. -/
structure UserConfig where
  stdin : Option StreamHandle := none
  stdout : Option StreamHandle := none
  stderr : Option StreamHandle := none
  input : Option StreamHandle := none
  output : Option StreamHandle := none
  error : Option StreamHandle := none
  ignore : Option (List String) := none
  parent : Option (Option String) := none
  interactive : Option Bool := none
  force : Option Bool := none
  silent : Option Bool := none
  messages : Option UserMessages := none
deriving DecidableEq

/-- The fully resolved configuration. -/
structure Config where
  stdin : StreamHandle
  stdout : StreamHandle
  stderr : StreamHandle
  ignore : List String
  parent : Option String
  interactive : Bool
  force : Bool
  silent : Bool
  messages : Messages
deriving DecidableEq

/-- Default `contained` message from `defaults` in src/index.js. -/
def containedDefault : String :=
  "Source folder seems to be contained by destination folder.\nLet's not wipe everything out."

/-- Default `confirm` message from `defaults` in src/index.js. -/
def confirmDefault : String :=
  "[?] Destination folder will be wiped out. Are you sure you want to proceed? [y/N] "

/-- Default `abort` message from `defaults` in src/index.js. -/
def abortDefault : String :=
  "Destination folder not empty, aborting"

/-- Default ignore list from `defaults` in src/index.js. -/
def ignoreDefault : List String :=
  [".DS_Store", "Thumbs.db"]

/-- `extend(defaultMessages, config.messages || {})`: per-key overlay of the
caller's partial messages onto the built-in ones. -/
def mergeMessages : Option UserMessages → Messages
  | none =>
      { contained := containedDefault, confirm := confirmDefault, abort := abortDefault }
  | some m =>
      { contained := m.contained.getD containedDefault
        confirm := m.confirm.getD confirmDefault
        abort := m.abort.getD abortDefault }

/-- `defaults(config)` applied to a present config object: overlays the
caller's fields onto the built-in defaults (`extend`), then overlays the
partial `messages` object per-key.  The `input`/`output`/`error` fields are
copied onto the object by `extend` but read by nothing, so they do not appear
in the resolved `Config`. -/
def mergeDefaults (c : UserConfig) : Config :=
  { stdin := c.stdin.getD StreamHandle.processStdin
    stdout := c.stdout.getD StreamHandle.processStdout
    stderr := c.stderr.getD StreamHandle.processStderr
    ignore := c.ignore.getD ignoreDefault
    parent := c.parent.getD none
    interactive := c.interactive.getD true
    force := c.force.getD false
    silent := c.silent.getD false
    messages := mergeMessages c.messages }

/-- `defaults(config)` where `config` may be `undefined` (`config || {}`). -/
def defaults (c : Option UserConfig) : Config :=
  mergeDefaults (c.getD {})

/-- JavaScript truthiness of `config.parent`: `null` and `""` are falsy,
every other string is truthy. -/
def truthyParent : Option String → Bool
  | none => false
  | some s => !(s == "")

/-- One string starts with another (on the character sequences).  This is
`a.indexOf(b) === 0` in JavaScript. -/
def strStartsWith (s : String) (p : String) : Bool :=
  p.data.isPrefixOf s.data

/-- `isParent(dir, parent)` from src/index.js:
`path.resolve(dir).indexOf(path.resolve(parent)) === 0`, i.e. the resolved
`dir` starts with the resolved `parent`. -/
def isParent (env : Env) (dir : String) (parent : String) : Bool :=
  strStartsWith (env.resolve dir) (env.resolve parent)

/-- `checkParent(dir, config)` from src/index.js: rejects with `CONTAINED`
when `isParent(config.parent, dir)` holds (note the call site passes
`config.parent` as `isParent`'s first argument and `dir` as its second). -/
def checkParent (env : Env) (dir : String) (cfg : Config) : Except Err Unit :=
  if isParent env (cfg.parent.getD "") dir then
    Except.error (createError cfg.messages.contained "CONTAINED")
  else
    Except.ok ()

/-- The filter inside `isEmpty`: keep the entries whose name is not in the
ignore list (`config.ignore.indexOf(file) === -1`). -/
def filteredEntries (ignore : List String) (files : List String) : List String :=
  files.filter (fun file => !(ignore.contains file))

/-- `isEmpty(dir, config)` from src/index.js: one `readdir`, filter by the
ignore list, empty iff the filtered count is zero (`files.length === 0`);
an `ENOENT` listing failure is interpreted as empty, any other listing
failure is rethrown. -/
def isEmpty (env : Env) (dir : String) (cfg : Config) :
    List Event × Except Err Bool :=
  ([Event.readdirCall dir],
    match env.listing dir with
    | Except.ok files => Except.ok (filteredEntries cfg.ignore files).isEmpty
    | Except.error e => if e.code == "ENOENT" then Except.ok true else Except.error e)

/-- `/^y(es)?/i.test(answer)` from `checkEmpty`: since the group `(es)` is
optional and the pattern is not anchored at the end, the regex matches
exactly when the answer's first character is `y` or `Y`. -/
def regexYesMatch (s : String) : Bool :=
  match s.data with
  | [] => false
  | c :: _ => c == 'y' || c == 'Y'

/-- `prompt(question, config)` from src/index.js: the readline interface is
created over `config.stdin` / `config.stdout`, the question is written to the
output, one answer line is read from the input. -/
def prompt (env : Env) (question : String) (cfg : Config) :
    List Event × String :=
  ([Event.promptWrite cfg.stdout question, Event.answerRead cfg.stdin], env.answer)

/-- `checkEmpty(dir, config)` from src/index.js: empty → resolve; `force` →
resolve; not `interactive` → reject `ABORT`; otherwise prompt once and reject
`ABORT` unless the answer matches `/^y(es)?/i`. -/
def checkEmpty (env : Env) (dir : String) (cfg : Config) :
    List Event × Except Err Unit :=
  match isEmpty env dir cfg with
  | (ev, Except.error e) => (ev, Except.error e)
  | (ev, Except.ok true) => (ev, Except.ok ())
  | (ev, Except.ok false) =>
    if cfg.force then (ev, Except.ok ())
    else if !cfg.interactive then
      (ev, Except.error (createError cfg.messages.abort "ABORT"))
    else
      match prompt env cfg.messages.confirm cfg with
      | (pev, answer) =>
        if regexYesMatch answer then (ev ++ pev, Except.ok ())
        else (ev ++ pev, Except.error (createError cfg.messages.abort "ABORT"))

/-- The promise chain of `safeWipeRaw` before the `silent` catch handler:
`checkParent` (only when `config.parent` is truthy), then `checkEmpty`, then
`rimraf(dir)`. -/
def pipeline (env : Env) (dir : String) (cfg : Config) :
    List Event × Except Err Unit :=
  match (if truthyParent cfg.parent then checkParent env dir cfg else Except.ok ()) with
  | Except.error e => ([], Except.error e)
  | Except.ok () =>
    match checkEmpty env dir cfg with
    | (ev, Except.error e) => (ev, Except.error e)
    | (ev, Except.ok ()) =>
      (ev ++ [Event.rimrafCall dir],
        match env.rimraf dir with
        | none => Except.ok ()
        | some e => Except.error e)

/-- `safeWipeRaw(dir, config)` from src/index.js: the pipeline, plus — unless
`config.silent` — a catch handler writing `e.message + '\n'` to
`config.stderr` and rethrowing the same error. -/
def safeWipeRaw (env : Env) (dir : String) (cfg : Config) :
    List Event × Except Err Unit :=
  match pipeline env dir cfg with
  | (ev, Except.error e) =>
    if cfg.silent then (ev, Except.error e)
    else (ev ++ [Event.stderrWrite cfg.stderr (e.message ++ "\n")], Except.error e)
  | (ev, Except.ok ()) => (ev, Except.ok ())

/-- The exported `safeWipe(dir, config)` in its string-first form:
`safeWipeRaw(dir, defaults(config))`, returning the promise. -/
def safeWipe (env : Env) (dir : String) (cfg : Option UserConfig) :
    List Event × Except Err Unit :=
  safeWipeRaw env dir (defaults cfg)

/-- The exported `safeWipe(config)` object-first form: `safeWipeNew(config)`
resolves the config once and returns `function (dir) { safeWipeRaw(dir, config) }`.
The closure declares only `dir`: a second (inner config) argument passed by a
caller is ignored by the JavaScript calling convention, and the closure body
does not `return` the promise, so the caller receives `undefined` (`none`)
while the side effects still happen. -/
def safeWipeNew (env : Env) (config : UserConfig) (dir : String)
    (innerCfg : Option UserConfig) : List Event × Option (Except Err Unit) :=
  match innerCfg with
  | _ => ((safeWipeRaw env dir (defaults (some config))).1, none)

/-- The containment step lets the call through: either `config.parent` is
falsy (check skipped) or `isParent(config.parent, dir)` is false. -/
def containmentPasses (env : Env) (dir : String) (cfg : Config) : Bool :=
  !truthyParent cfg.parent || !isParent env (cfg.parent.getD "") dir

/-- Does the trace contain a directory-listing call? -/
def hasReaddir (evs : List Event) : Bool :=
  evs.any fun e => match e with | Event.readdirCall _ => true | _ => false

/-- Does the trace contain a prompt write? -/
def hasPrompt (evs : List Event) : Bool :=
  evs.any fun e => match e with | Event.promptWrite _ _ => true | _ => false

/-- Does the trace contain an invocation of the external delete? -/
def hasRimraf (evs : List Event) : Bool :=
  evs.any fun e => match e with | Event.rimrafCall _ => true | _ => false

/-- Does the trace contain a write to the error stream? -/
def hasStderr (evs : List Event) : Bool :=
  evs.any fun e => match e with | Event.stderrWrite _ _ => true | _ => false

/-- Number of prompt writes in the trace. -/
def promptCount (evs : List Event) : Nat :=
  (evs.filter fun e => match e with | Event.promptWrite _ _ => true | _ => false).length

/-- A sample environment for concrete runs: `path.resolve` prefixes the
working directory, `full` is a directory with one real entry, `locked` fails
with `EACCES`, everything else does not exist, the operator answers `y`, the
external delete succeeds. -/
def envA : Env :=
  { resolve := fun s => "/root/" ++ s
    listing := fun d =>
      if d == "full" then Except.ok ["a.txt"]
      else if d == "locked" then Except.error (createError "permission denied" "EACCES")
      else Except.error (createError "no such file or directory" "ENOENT")
    answer := "y"
    rimraf := fun _ => none }

/-- The emptiness/confirmation step never writes to the error stream. -/
theorem hasStderr_checkEmpty (env : Env) (dir : String) (cfg : Config) :
    hasStderr (checkEmpty env dir cfg).1 = false := by
  unfold checkEmpty isEmpty prompt
  cases h : env.listing dir with
  | ok files =>
    cases he : (filteredEntries cfg.ignore files).isEmpty with
    | true => simp [h, he, hasStderr]
    | false =>
      cases hf : cfg.force <;> cases hi : cfg.interactive <;>
        cases hy : regexYesMatch env.answer <;>
        simp [h, he, hf, hi, hy, hasStderr]
  | error e =>
    cases hc : e.code == "ENOENT" <;> simp [h, hc, hasStderr]

/-- For every config, `pipeline` itself never writes to the error stream:
only the `silent` catch handler of `safeWipeRaw` does. -/
theorem hasStderr_pipeline (env : Env) (dir : String) (cfg : Config) :
    hasStderr (pipeline env dir cfg).1 = false := by
  unfold pipeline
  split
  · simp [hasStderr]
  · split
    · next ev e heq =>
        have hce := hasStderr_checkEmpty env dir cfg
        rw [heq] at hce
        simpa using hce
    · next ev heq =>
        have hce := hasStderr_checkEmpty env dir cfg
        rw [heq] at hce
        unfold hasStderr at hce ⊢
        rw [List.any_append]
        simp [hce]

/-- C1 is false as stated: with the empty-string parent path `P = ""` (whose
resolved form starts with the resolved form of `D = ""`), the `if
(config.parent)` guard is falsy, the containment check is skipped, the
directory IS listed, and the call succeeds instead of failing with
`CONTAINED`. -/
theorem contained_empty_parent_counterexample :
    strStartsWith (envA.resolve "") (envA.resolve "") = true ∧
    (safeWipe envA "" (some { parent := some (some "") })).2 = Except.ok () ∧
    hasReaddir (safeWipe envA "" (some { parent := some (some "") })).1 = true := by
  decide

/-- C1 (amended: the parent path must be non-empty): for every environment,
directory `dir` and non-empty parent path `par` whose resolved form starts
with the resolved form of `dir` (including `dir = par`),
`wipe(dir, {parent: par})` fails with code `CONTAINED` carrying the resolved
`contained` message, and no directory listing, no prompt write and no
external-delete invocation ever happens. -/
theorem contained_rejects_before_listing
    (env : Env) (dir par : String) (hp : par ≠ "")
    (hc : strStartsWith (env.resolve par) (env.resolve dir) = true) :
    (safeWipe env dir (some { parent := some (some par) })).2 =
      Except.error (createError containedDefault "CONTAINED") ∧
    hasReaddir (safeWipe env dir (some { parent := some (some par) })).1 = false ∧
    hasPrompt (safeWipe env dir (some { parent := some (some par) })).1 = false ∧
    hasRimraf (safeWipe env dir (some { parent := some (some par) })).1 = false := by
  have hp' : (par == "") = false := by
    simp [hp]
  simp [safeWipe, defaults, mergeDefaults, mergeMessages, safeWipeRaw, pipeline,
    truthyParent, checkParent, isParent, hp', hc, hasReaddir, hasPrompt, hasRimraf,
    createError]

/-- The C1 amended theorem applied at `dir = "x"`, `par = "xy"` in `envA`. -/
theorem contained_rejects_before_listing_witness :
    ("xy" ≠ "") ∧
    strStartsWith (envA.resolve "xy") (envA.resolve "x") = true ∧
    ((safeWipe envA "x" (some { parent := some (some "xy") })).2 =
      Except.error (createError containedDefault "CONTAINED") ∧
    hasReaddir (safeWipe envA "x" (some { parent := some (some "xy") })).1 = false ∧
    hasPrompt (safeWipe envA "x" (some { parent := some (some "xy") })).1 = false ∧
    hasRimraf (safeWipe envA "x" (some { parent := some (some "xy") })).1 = false) :=
  ⟨by decide, by decide,
    contained_rejects_before_listing envA "x" "xy" (by decide) (by decide)⟩

/-- C2 is false as stated: a configuration with `interactive: false`,
`force: false` may also carry a `parent` that triggers the containment check,
and then the call on a non-empty directory fails with `CONTAINED`, not
`ABORT`. -/
theorem abort_claim_parent_counterexample :
    envA.listing "full" = Except.ok ["a.txt"] ∧
    (safeWipe envA "full"
        (some { parent := some (some "full"), interactive := some false })).2 =
      Except.error (createError containedDefault "CONTAINED") := by
  decide

/-- C2 (amended: provided the containment check does not reject first, e.g.
no parent configured): for every non-empty directory (after ignore
filtering) and every configuration with `interactive` false and `force`
false, the call fails with code `ABORT` carrying the resolved `abort`
message, no prompt is written and the external delete is never invoked. -/
theorem abort_noninteractive_nonempty
    (env : Env) (dir : String) (u : UserConfig) (files : List String)
    (hl : env.listing dir = Except.ok files)
    (hne : (filteredEntries (mergeDefaults u).ignore files).isEmpty = false)
    (hi : (mergeDefaults u).interactive = false)
    (hf : (mergeDefaults u).force = false)
    (hpar : containmentPasses env dir (mergeDefaults u) = true) :
    (safeWipe env dir (some u)).2 =
      Except.error (createError (mergeDefaults u).messages.abort "ABORT") ∧
    hasPrompt (safeWipe env dir (some u)).1 = false ∧
    hasRimraf (safeWipe env dir (some u)).1 = false := by
  cases hT : truthyParent (mergeDefaults u).parent with
  | false =>
    cases hS : (mergeDefaults u).silent <;>
      simp [safeWipe, defaults, safeWipeRaw, pipeline, checkEmpty, isEmpty,
        hl, hne, hi, hf, hT, hS, hasPrompt, hasRimraf, createError]
  | true =>
    have hip : isParent env ((mergeDefaults u).parent.getD "") dir = false := by
      simpa [containmentPasses, hT] using hpar
    cases hS : (mergeDefaults u).silent <;>
      simp [safeWipe, defaults, safeWipeRaw, pipeline, checkEmpty, isEmpty,
        checkParent, hl, hne, hi, hf, hT, hS, hip, hasPrompt, hasRimraf, createError]

/-- The C2 amended theorem applied to `envA`, directory `full`, config
`{interactive: false}`. -/
theorem abort_noninteractive_nonempty_witness :
    envA.listing "full" = Except.ok ["a.txt"] ∧
    (filteredEntries (mergeDefaults { interactive := some false }).ignore
      ["a.txt"]).isEmpty = false ∧
    (mergeDefaults { interactive := some false }).interactive = false ∧
    (mergeDefaults { interactive := some false }).force = false ∧
    containmentPasses envA "full" (mergeDefaults { interactive := some false }) = true ∧
    ((safeWipe envA "full" (some { interactive := some false })).2 =
      Except.error
        (createError (mergeDefaults { interactive := some false }).messages.abort
          "ABORT") ∧
    hasPrompt (safeWipe envA "full" (some { interactive := some false })).1 = false ∧
    hasRimraf (safeWipe envA "full" (some { interactive := some false })).1 = false) :=
  ⟨by decide, by decide, by decide, by decide, by decide,
    abort_noninteractive_nonempty envA "full" { interactive := some false } ["a.txt"]
      (by decide) (by decide) (by decide) (by decide) (by decide)⟩

/-- C3 names a code bug: the closure returned by the object-first call
`safeWipe({interactive: false})` declares only `dir`, so an inner per-call
config is silently ignored (here `{force: true}`, which a direct merged call
would honor by wiping), and the closure body lacks a `return`, so the caller
receives `undefined` instead of the promise and can observe no outcome at
all — contradicting the repository's own README, which chains `.then` on the
bound call and passes an inner config. -/
theorem bound_wipe_drops_outcome_and_inner_config :
    (safeWipeNew envA { interactive := some false } "full" (some { force := some true })).2
      = none ∧
    hasRimraf
      (safeWipeNew envA { interactive := some false } "full"
        (some { force := some true })).1 = false ∧
    (safeWipe envA "full" (some { interactive := some false, force := some true })).2
      = Except.ok () ∧
    (safeWipe envA "full" (some { interactive := some false })).2
      = Except.error (createError abortDefault "ABORT") := by
  decide

/-- C4: for every non-empty directory (after default-ignore filtering),
`wipe(dir, {force: true, interactive: b})` never writes the confirmation
prompt and proceeds to the external delete, succeeding when the delete
does, for both values of the `interactive` flag. -/
theorem force_wipes_nonempty_without_prompt
    (env : Env) (dir : String) (files : List String) (b : Bool)
    (hl : env.listing dir = Except.ok files)
    (hne : (filteredEntries ignoreDefault files).isEmpty = false)
    (hr : env.rimraf dir = none) :
    (safeWipe env dir (some { force := some true, interactive := some b })).2 =
      Except.ok () ∧
    hasPrompt
      (safeWipe env dir (some { force := some true, interactive := some b })).1 = false ∧
    hasRimraf
      (safeWipe env dir (some { force := some true, interactive := some b })).1 = true := by
  simp [safeWipe, defaults, mergeDefaults, mergeMessages, safeWipeRaw, pipeline,
    checkEmpty, isEmpty, truthyParent, hl, hne, hr, hasPrompt, hasRimraf]

/-- The C4 theorem applied to `envA`, directory `full`, `interactive` false. -/
theorem force_wipes_nonempty_without_prompt_witness :
    envA.listing "full" = Except.ok ["a.txt"] ∧
    (filteredEntries ignoreDefault ["a.txt"]).isEmpty = false ∧
    envA.rimraf "full" = none ∧
    ((safeWipe envA "full" (some { force := some true, interactive := some false })).2 =
      Except.ok () ∧
    hasPrompt
      (safeWipe envA "full"
        (some { force := some true, interactive := some false })).1 = false ∧
    hasRimraf
      (safeWipe envA "full"
        (some { force := some true, interactive := some false })).1 = true) :=
  ⟨by decide, by decide, by decide,
    force_wipes_nonempty_without_prompt envA "full" ["a.txt"] false
      (by decide) (by decide) (by decide)⟩

/-- C5: for every directory that is effectively empty — the listing fails
with the distinguished `ENOENT` condition (directory does not exist), or
every listed entry is on the configured ignore list — `wipe(dir, cfg)` (with
`cfg` either `{}` or `{ignore}`) never writes the confirmation prompt and
succeeds when the external delete does. -/
theorem effectively_empty_wipes_without_prompt
    (env : Env) (dir : String) (ig : Option (List String))
    (hcase :
      (∃ e, env.listing dir = Except.error e ∧ e.code = "ENOENT") ∨
      (∃ files, env.listing dir = Except.ok files ∧
        filteredEntries ((mergeDefaults { ignore := ig }).ignore) files = []))
    (hr : env.rimraf dir = none) :
    (safeWipe env dir (some { ignore := ig })).2 = Except.ok () ∧
    hasPrompt (safeWipe env dir (some { ignore := ig })).1 = false := by
  rcases hcase with ⟨e, hl, hcode⟩ | ⟨files, hl, hfe⟩
  · simp [safeWipe, defaults, mergeDefaults, mergeMessages, safeWipeRaw, pipeline,
      checkEmpty, isEmpty, truthyParent, hl, hcode, hr, hasPrompt]
  · simp only [mergeDefaults] at hfe
    simp [safeWipe, defaults, mergeDefaults, mergeMessages, safeWipeRaw, pipeline,
      checkEmpty, isEmpty, truthyParent, hl, hfe, hr, hasPrompt]

/-- The C5 theorem applied twice in `envA`: to the non-existent directory
`nope` with config `{}`, and to the directory `full` with its sole entry
`a.txt` ignored. -/
theorem effectively_empty_wipes_without_prompt_witness :
    ((∃ e, envA.listing "nope" = Except.error e ∧ e.code = "ENOENT") ∧
      envA.rimraf "nope" = none ∧
      ((safeWipe envA "nope" (some { ignore := none })).2 = Except.ok () ∧
        hasPrompt (safeWipe envA "nope" (some { ignore := none })).1 = false)) ∧
    ((∃ files, envA.listing "full" = Except.ok files ∧
        filteredEntries ((mergeDefaults { ignore := some ["a.txt"] }).ignore) files = []) ∧
      envA.rimraf "full" = none ∧
      ((safeWipe envA "full" (some { ignore := some ["a.txt"] })).2 = Except.ok () ∧
        hasPrompt (safeWipe envA "full" (some { ignore := some ["a.txt"] })).1 = false)) :=
  ⟨⟨⟨createError "no such file or directory" "ENOENT", by decide, by decide⟩, by decide,
      effectively_empty_wipes_without_prompt envA "nope" none
        (Or.inl ⟨createError "no such file or directory" "ENOENT", by decide, by decide⟩)
        (by decide)⟩,
    ⟨⟨["a.txt"], by decide, by decide⟩, by decide,
      effectively_empty_wipes_without_prompt envA "full" (some ["a.txt"])
        (Or.inr ⟨["a.txt"], by decide, by decide⟩) (by decide)⟩⟩

/-- Full run on a non-empty listing under the default (interactive,
non-force, non-silent) configuration: one prompt is written to the default
output, one answer line is read, and the run either proceeds to the delete
or fails `ABORT`, according to the regex verdict on the answer. -/
theorem run_default_nonempty
    (env : Env) (dir : String) (files : List String)
    (hl : env.listing dir = Except.ok files)
    (hne : (filteredEntries ignoreDefault files).isEmpty = false)
    (hr : env.rimraf dir = none) :
    safeWipe env dir (some {}) =
      if regexYesMatch env.answer then
        ([Event.readdirCall dir,
          Event.promptWrite StreamHandle.processStdout confirmDefault,
          Event.answerRead StreamHandle.processStdin,
          Event.rimrafCall dir], Except.ok ())
      else
        ([Event.readdirCall dir,
          Event.promptWrite StreamHandle.processStdout confirmDefault,
          Event.answerRead StreamHandle.processStdin,
          Event.stderrWrite StreamHandle.processStderr (abortDefault ++ "\n")],
          Except.error (createError abortDefault "ABORT")) := by
  cases hy : regexYesMatch env.answer <;>
    simp [safeWipe, defaults, mergeDefaults, mergeMessages, safeWipeRaw, pipeline,
      checkEmpty, isEmpty, prompt, truthyParent, hl, hne, hr, hy, createError]

/-- `run_default_nonempty`, restated with the prompt answer substituted into
the environment, so it rewrites runs of the form
`safeWipe { env with answer := a } dir (some {})`. -/
theorem run_default_nonempty_answer
    (env : Env) (a : String) (dir : String) (files : List String)
    (hl : env.listing dir = Except.ok files)
    (hne : (filteredEntries ignoreDefault files).isEmpty = false)
    (hr : env.rimraf dir = none) :
    safeWipe { env with answer := a } dir (some {}) =
      if regexYesMatch a then
        ([Event.readdirCall dir,
          Event.promptWrite StreamHandle.processStdout confirmDefault,
          Event.answerRead StreamHandle.processStdin,
          Event.rimrafCall dir], Except.ok ())
      else
        ([Event.readdirCall dir,
          Event.promptWrite StreamHandle.processStdout confirmDefault,
          Event.answerRead StreamHandle.processStdin,
          Event.stderrWrite StreamHandle.processStderr (abortDefault ++ "\n")],
          Except.error (createError abortDefault "ABORT")) :=
  run_default_nonempty { env with answer := a } dir files hl hne hr

/-- C6: at the confirmation prompt over a non-empty directory in the default
configuration, the answers `y`, `Y`, `yes`, `YES` are affirmative (the run
proceeds to the external delete and succeeds) and `""`, `n`, `no`, `maybe`
are negative (the run fails with `ABORT` and never invokes the delete);
whatever the answer, exactly one prompt is ever written. -/
theorem prompt_answer_evaluation
    (env : Env) (dir : String) (files : List String)
    (hl : env.listing dir = Except.ok files)
    (hne : (filteredEntries ignoreDefault files).isEmpty = false)
    (hr : env.rimraf dir = none) :
    (∀ a ∈ (["y", "Y", "yes", "YES"] : List String),
      (safeWipe { env with answer := a } dir (some {})).2 = Except.ok () ∧
      hasRimraf (safeWipe { env with answer := a } dir (some {})).1 = true) ∧
    (∀ a ∈ (["", "n", "no", "maybe"] : List String),
      (safeWipe { env with answer := a } dir (some {})).2 =
        Except.error (createError abortDefault "ABORT") ∧
      hasRimraf (safeWipe { env with answer := a } dir (some {})).1 = false) ∧
    (∀ a : String, promptCount (safeWipe { env with answer := a } dir (some {})).1 = 1) := by
  have hy4 : regexYesMatch "y" = true ∧ regexYesMatch "Y" = true ∧
      regexYesMatch "yes" = true ∧ regexYesMatch "YES" = true := by decide
  have hn4 : regexYesMatch "" = false ∧ regexYesMatch "n" = false ∧
      regexYesMatch "no" = false ∧ regexYesMatch "maybe" = false := by decide
  refine ⟨?_, ?_, ?_⟩
  · intro a ha
    fin_cases ha <;>
      rw [run_default_nonempty_answer env _ dir files hl hne hr] <;>
      simp [hy4.1, hy4.2.1, hy4.2.2.1, hy4.2.2.2, hasRimraf]
  · intro a ha
    fin_cases ha <;>
      rw [run_default_nonempty_answer env _ dir files hl hne hr] <;>
      simp [hn4.1, hn4.2.1, hn4.2.2.1, hn4.2.2.2, hasRimraf, createError]
  · intro a
    rw [run_default_nonempty_answer env a dir files hl hne hr]
    cases hy : regexYesMatch a <;> simp [hy, promptCount]

/-- The C6 theorem applied to `envA` and directory `full`. -/
theorem prompt_answer_evaluation_witness :
    envA.listing "full" = Except.ok ["a.txt"] ∧
    (filteredEntries ignoreDefault ["a.txt"]).isEmpty = false ∧
    envA.rimraf "full" = none ∧
    ((∀ a ∈ (["y", "Y", "yes", "YES"] : List String),
      (safeWipe { envA with answer := a } "full" (some {})).2 = Except.ok () ∧
      hasRimraf (safeWipe { envA with answer := a } "full" (some {})).1 = true) ∧
    (∀ a ∈ (["", "n", "no", "maybe"] : List String),
      (safeWipe { envA with answer := a } "full" (some {})).2 =
        Except.error (createError abortDefault "ABORT") ∧
      hasRimraf (safeWipe { envA with answer := a } "full" (some {})).1 = false) ∧
    (∀ a : String,
      promptCount (safeWipe { envA with answer := a } "full" (some {})).1 = 1)) :=
  ⟨by decide, by decide, by decide,
    prompt_answer_evaluation envA "full" ["a.txt"] (by decide) (by decide) (by decide)⟩

/-- C7: for every failing invocation, when `silent` is false the failure's
message followed by a line break is written to the error stream after the
pipeline's own events and the very same failure is re-signaled; when
`silent` is true the identical failure is signaled and the trace holds no
error-stream write at all. -/
theorem failure_echo_respects_silent
    (env : Env) (dir : String) (u : UserConfig) (e : Err)
    (hfail : (pipeline env dir (mergeDefaults u)).2 = Except.error e) :
    (safeWipe env dir (some u)).2 = Except.error e ∧
    ((mergeDefaults u).silent = false →
      (safeWipe env dir (some u)).1 =
        (pipeline env dir (mergeDefaults u)).1 ++
          [Event.stderrWrite (mergeDefaults u).stderr (e.message ++ "\n")]) ∧
    ((mergeDefaults u).silent = true →
      (safeWipe env dir (some u)).1 = (pipeline env dir (mergeDefaults u)).1 ∧
      hasStderr (safeWipe env dir (some u)).1 = false) := by
  have hstd := hasStderr_pipeline env dir (mergeDefaults u)
  rcases hq : pipeline env dir (mergeDefaults u) with ⟨ev, out⟩
  rw [hq] at hfail hstd
  simp only at hfail
  subst hfail
  cases hS : (mergeDefaults u).silent <;>
    simp_all [safeWipe, defaults, safeWipeRaw, hq, hS]

/-- The C7 theorem applied to `envA`, directory `full`, config
`{interactive: false}` (a failing invocation with code `ABORT`). -/
theorem failure_echo_respects_silent_witness :
    (pipeline envA "full" (mergeDefaults { interactive := some false })).2 =
      Except.error (createError abortDefault "ABORT") ∧
    ((safeWipe envA "full" (some { interactive := some false })).2 =
      Except.error (createError abortDefault "ABORT") ∧
    ((mergeDefaults { interactive := some false }).silent = false →
      (safeWipe envA "full" (some { interactive := some false })).1 =
        (pipeline envA "full" (mergeDefaults { interactive := some false })).1 ++
          [Event.stderrWrite (mergeDefaults { interactive := some false }).stderr
            ((createError abortDefault "ABORT").message ++ "\n")]) ∧
    ((mergeDefaults { interactive := some false }).silent = true →
      (safeWipe envA "full" (some { interactive := some false })).1 =
        (pipeline envA "full" (mergeDefaults { interactive := some false })).1 ∧
      hasStderr (safeWipe envA "full" (some { interactive := some false })).1 = false)) :=
  ⟨by decide,
    failure_echo_respects_silent envA "full" { interactive := some false }
      (createError abortDefault "ABORT") (by decide)⟩

/-- C8: a directory-listing failure other than the distinguished `ENOENT`
condition makes the emptiness check propagate that very error: it is not
read as empty, the overall call fails with the unrelabeled error, no prompt
is written and the external delete is never invoked. -/
theorem listing_failure_propagates
    (env : Env) (dir : String) (u : UserConfig) (e : Err)
    (hl : env.listing dir = Except.error e)
    (hcode : e.code ≠ "ENOENT")
    (hpar : containmentPasses env dir (mergeDefaults u) = true) :
    checkEmpty env dir (mergeDefaults u) = ([Event.readdirCall dir], Except.error e) ∧
    (safeWipe env dir (some u)).2 = Except.error e ∧
    hasPrompt (safeWipe env dir (some u)).1 = false ∧
    hasRimraf (safeWipe env dir (some u)).1 = false := by
  have hcode' : (e.code == "ENOENT") = false := by
    simp [hcode]
  cases hT : truthyParent (mergeDefaults u).parent with
  | false =>
    cases hS : (mergeDefaults u).silent <;>
      simp [safeWipe, defaults, safeWipeRaw, pipeline, checkEmpty, isEmpty,
        hl, hcode', hT, hS, hasPrompt, hasRimraf]
  | true =>
    have hip : isParent env ((mergeDefaults u).parent.getD "") dir = false := by
      simpa [containmentPasses, hT] using hpar
    cases hS : (mergeDefaults u).silent <;>
      simp [safeWipe, defaults, safeWipeRaw, pipeline, checkEmpty, isEmpty,
        checkParent, hl, hcode', hT, hS, hip, hasPrompt, hasRimraf]

/-- The C8 theorem applied to `envA` and the directory `locked`, whose
listing fails with `EACCES`. -/
theorem listing_failure_propagates_witness :
    envA.listing "locked" = Except.error (createError "permission denied" "EACCES") ∧
    (createError "permission denied" "EACCES").code ≠ "ENOENT" ∧
    containmentPasses envA "locked" (mergeDefaults {}) = true ∧
    (checkEmpty envA "locked" (mergeDefaults {}) =
      ([Event.readdirCall "locked"],
        Except.error (createError "permission denied" "EACCES")) ∧
    (safeWipe envA "locked" (some {})).2 =
      Except.error (createError "permission denied" "EACCES") ∧
    hasPrompt (safeWipe envA "locked" (some {})).1 = false ∧
    hasRimraf (safeWipe envA "locked" (some {})).1 = false) :=
  ⟨by decide, by decide, by decide,
    listing_failure_propagates envA "locked" {}
      (createError "permission denied" "EACCES") (by decide) (by decide) (by decide)⟩

/-- C9 is false as stated: supplying streams under the keys `input`,
`output`, `error` changes nothing — the prompt is still written to the
default `process.stdout`, the answer is still read from `process.stdin`,
and the failure message still goes to `process.stderr`, none of which is a
supplied handle. -/
theorem stream_keys_counterexample :
    (safeWipe { envA with answer := "n" } "full"
        (some { input := some (StreamHandle.handle 1),
                output := some (StreamHandle.handle 2),
                error := some (StreamHandle.handle 3) })).1 =
      [Event.readdirCall "full",
        Event.promptWrite StreamHandle.processStdout confirmDefault,
        Event.answerRead StreamHandle.processStdin,
        Event.stderrWrite StreamHandle.processStderr (abortDefault ++ "\n")] ∧
    StreamHandle.handle 2 ≠ StreamHandle.processStdout ∧
    StreamHandle.handle 1 ≠ StreamHandle.processStdin ∧
    StreamHandle.handle 3 ≠ StreamHandle.processStderr := by
  decide

/-- C9 (amended: the configuration keys actually honored are `stdin`,
`stdout`, `stderr`, not `input`/`output`/`error`): on a prompting run that
the operator declines, the prompt text goes to the stream supplied under
`stdout`, the answer is read from the stream supplied under `stdin`, and the
failure message goes to the stream supplied under `stderr`, each defaulting
to the corresponding `process` stream. -/
theorem streams_follow_stdio_keys
    (env : Env) (dir : String) (u : UserConfig) (files : List String)
    (hl : env.listing dir = Except.ok files)
    (hne : (filteredEntries (mergeDefaults u).ignore files).isEmpty = false)
    (hforce : (mergeDefaults u).force = false)
    (hint : (mergeDefaults u).interactive = true)
    (hpar : containmentPasses env dir (mergeDefaults u) = true)
    (hans : regexYesMatch env.answer = false)
    (hsil : (mergeDefaults u).silent = false) :
    (safeWipe env dir (some u)).1 =
      [Event.readdirCall dir,
        Event.promptWrite (u.stdout.getD StreamHandle.processStdout)
          (mergeDefaults u).messages.confirm,
        Event.answerRead (u.stdin.getD StreamHandle.processStdin),
        Event.stderrWrite (u.stderr.getD StreamHandle.processStderr)
          ((mergeDefaults u).messages.abort ++ "\n")] := by
  cases hT : truthyParent (mergeDefaults u).parent with
  | false =>
    simp only [mergeDefaults] at hne hforce hint hsil hT ⊢
    simp [safeWipe, defaults, mergeDefaults, safeWipeRaw, pipeline, checkEmpty,
      isEmpty, prompt, hl, hne, hforce, hint, hans, hsil, hT, createError]
  | true =>
    have hip : isParent env ((mergeDefaults u).parent.getD "") dir = false := by
      simpa [containmentPasses, hT] using hpar
    simp only [mergeDefaults] at hne hforce hint hsil hT hip ⊢
    simp [safeWipe, defaults, mergeDefaults, safeWipeRaw, pipeline, checkEmpty,
      isEmpty, prompt, checkParent, hl, hne, hforce, hint, hans, hsil, hT, hip,
      createError]

/-- The C9 amended theorem applied to `envA` (answer `n`), directory `full`,
with handles 4, 5, 6 supplied under `stdin`, `stdout`, `stderr`. -/
theorem streams_follow_stdio_keys_witness :
    ({ envA with answer := "n" } : Env).listing "full" = Except.ok ["a.txt"] ∧
    (filteredEntries
      (mergeDefaults
        { stdin := some (StreamHandle.handle 4), stdout := some (StreamHandle.handle 5),
          stderr := some (StreamHandle.handle 6) }).ignore ["a.txt"]).isEmpty = false ∧
    regexYesMatch ({ envA with answer := "n" } : Env).answer = false ∧
    (safeWipe { envA with answer := "n" } "full"
        (some { stdin := some (StreamHandle.handle 4),
                stdout := some (StreamHandle.handle 5),
                stderr := some (StreamHandle.handle 6) })).1 =
      [Event.readdirCall "full",
        Event.promptWrite
          ((some (StreamHandle.handle 5)).getD StreamHandle.processStdout)
          (mergeDefaults
            { stdin := some (StreamHandle.handle 4), stdout := some (StreamHandle.handle 5),
              stderr := some (StreamHandle.handle 6) }).messages.confirm,
        Event.answerRead ((some (StreamHandle.handle 4)).getD StreamHandle.processStdin),
        Event.stderrWrite
          ((some (StreamHandle.handle 6)).getD StreamHandle.processStderr)
          ((mergeDefaults
            { stdin := some (StreamHandle.handle 4), stdout := some (StreamHandle.handle 5),
              stderr := some (StreamHandle.handle 6) }).messages.abort ++ "\n")] :=
  ⟨by decide, by decide, by decide,
    streams_follow_stdio_keys { envA with answer := "n" } "full"
      { stdin := some (StreamHandle.handle 4), stdout := some (StreamHandle.handle 5),
        stderr := some (StreamHandle.handle 6) } ["a.txt"]
      (by decide) (by decide) (by decide) (by decide) (by decide) (by decide) (by decide)⟩

/-- C10: any answer whose first character is `y` or `Y` — whatever follows
it — satisfies the affirmative test `/^y(es)?/i` (the `(es)` group being
optional and the pattern unanchored at the end), so the run over a
non-empty directory in the default configuration proceeds to the external
delete and succeeds. -/
theorem y_prefix_is_affirmative
    (env : Env) (dir : String) (files : List String)
    (hl : env.listing dir = Except.ok files)
    (hne : (filteredEntries ignoreDefault files).isEmpty = false)
    (hr : env.rimraf dir = none)
    (hy : env.answer.data.head? = some 'y' ∨ env.answer.data.head? = some 'Y') :
    regexYesMatch env.answer = true ∧
    (safeWipe env dir (some {})).2 = Except.ok () ∧
    hasRimraf (safeWipe env dir (some {})).1 = true := by
  have hm : regexYesMatch env.answer = true := by
    unfold regexYesMatch
    rcases hdata : env.answer.data with _ | ⟨c, cs⟩
    · rw [hdata] at hy
      simp at hy
    · rw [hdata] at hy
      simp only [List.head?_cons, Option.some.injEq] at hy
      rcases hy with rfl | rfl <;> simp
  rw [run_default_nonempty env dir files hl hne hr, hm]
  simp [hm, hasRimraf]

/-- The C10 theorem applied to `envA` with the answer `yep`. -/
theorem y_prefix_is_affirmative_witness :
    ({ envA with answer := "yep" } : Env).listing "full" = Except.ok ["a.txt"] ∧
    (filteredEntries ignoreDefault ["a.txt"]).isEmpty = false ∧
    ({ envA with answer := "yep" } : Env).rimraf "full" = none ∧
    (({ envA with answer := "yep" } : Env).answer.data.head? = some 'y' ∨
      ({ envA with answer := "yep" } : Env).answer.data.head? = some 'Y') ∧
    (regexYesMatch ({ envA with answer := "yep" } : Env).answer = true ∧
    (safeWipe { envA with answer := "yep" } "full" (some {})).2 = Except.ok () ∧
    hasRimraf (safeWipe { envA with answer := "yep" } "full" (some {})).1 = true) :=
  ⟨by decide, by decide, by decide, Or.inl (by decide),
    y_prefix_is_affirmative { envA with answer := "yep" } "full" ["a.txt"]
      (by decide) (by decide) (by decide) (Or.inl (by decide))⟩

end SafeWipe
